import Mathlib

/-!
Verification of the ParkVision ESP32 parking-bay sketch
(`src/parkingtestlatest.ino`): a shallow embedding of the control loop,
the IR-slot debounce reader, the gas/relay policy, the MQTT reconnect
loop and the DHT report function, together with theorems settling the
specification's claims.

Modelling conventions:
* Digital pin levels are the two-valued type `Level` (`low`/`high`).
* `analogRead` samples and HTTP status codes are integers.
* `float` temperature/humidity readings are `Option ℚ`: `none` models a
  NaN reading (`isnan` true), `some q` a numeric reading.  The sketch
  performs no float arithmetic on them, only comparisons against the
  literals 25.0 and 60.0 and decimal formatting, both exact on ℚ.
* Side effects (MQTT publishes, HTTP GETs, serial prints, `delay` calls,
  pin writes) are collected in effect records returned by the functions.
* The unbounded `while` of `reconnect` is embedded with explicit fuel;
  divergence of the source loop corresponds to `none` for every fuel.
-/

/-- Digital pin level, as in Arduino `LOW` / `HIGH`. -/
inductive Level where
  | low : Level
  | high : Level
deriving DecidableEq, Repr

/-- `const char* host = "YOUR_SERVER_IP";` (line 11). -/
def host : String := "YOUR_SERVER_IP"

/-- `const char* dht_topic = "DHT11_topic_manros";` (line 15). -/
def dht_topic : String := "DHT11_topic_manros"

/-- `const char* dht_topic1 = "DHT11_topic1_manros";` (line 16). -/
def dht_topic1 : String := "DHT11_topic1_manros"

/-- `const int threshold = 1000;` (line 38): gas-detection threshold. -/
def threshold : ℤ := 1000

/-- Arduino `HTTP_CODE_OK` (200). -/
def HTTP_CODE_OK : ℤ := 200

/-- Arduino `String(float)` formatting: fixed-point with two decimal
digits (rounding half away from zero, as `dtostrf` does).  Used for the
serial prints, the MQTT payloads and the HTTP query parameters. -/
def fmtFix2 (q : ℚ) : String :=
  let sign := if q < 0 then "-" else ""
  let c : ℕ := (q.num.natAbs * 200 + q.den) / (2 * q.den)
  sign ++ toString (c / 100) ++ "." ++
    (if c % 100 < 10 then "0" else "") ++ toString (c % 100)

/-- `detectIRStatus` (lines 142-150): read the pin; if `LOW`, `delay(50)`
and re-read; return `"Occupied"` only when both reads are `LOW`,
otherwise `"Empty"`.  `reads` is the trace of levels the pin would
return at each time instant; the first read happens at time `t`, the
re-read (after the 50 ms settle delay) at `t + 50`. -/
def detectIRStatus (reads : ℕ → Level) (t : ℕ) : String :=
  if reads t = Level.low then
    if reads (t + 50) = Level.low then "Occupied" else "Empty"
  else "Empty"

/-- Effects produced by one `readDHT` call: MQTT publishes
(topic, payload, retain flag), HTTP GET requests issued (the URL),
serial diagnostics, and `delay` calls (milliseconds). -/
structure DhtEffects where
  publishes : List (String × String × Bool)
  uploads : List String
  diags : List String
  delays : List ℕ
deriving DecidableEq, Repr

/-- `readDHT(int slots, String sensorStatus[], int gasValue)`
(lines 169-215).  `humidity`/`temperature` are the DHT readings
(`none` = NaN), `mqttConnected` is `mqttClient.connected()` at publish
time, `httpCode` the result of `http.GET()`, `httpResponse` the body
returned by `http.getString()`.  The `slots` parameter is accepted but,
as in the source, never used. -/
def readDHT (slots : ℤ) (sensorStatus : Fin 3 → String) (gasValue : ℤ)
    (humidity temperature : Option ℚ) (mqttConnected : Bool)
    (httpCode : ℤ) (httpResponse : String) : DhtEffects :=
  match humidity, temperature with
  | some h, some t =>
    let envLine := "Humidity: " ++ fmtFix2 h ++ " %\t" ++
      "Temperature: " ++ fmtFix2 t ++ " *C"
    let publishes :=
      if 25 ≤ t ∧ 60 ≤ h then
        if mqttConnected then
          [(dht_topic, fmtFix2 t, true), (dht_topic1, fmtFix2 h, true)]
        else []
      else []
    let pubDiags :=
      if 25 ≤ t ∧ 60 ≤ h then
        if mqttConnected then [] else ["MQTT not connected"]
      else []
    let link := "http://" ++ host ++ "/projectfinal/kirimdata.php?temp=" ++
      fmtFix2 t ++ "&hum=" ++ fmtFix2 h ++ "&gas=" ++ toString gasValue ++
      "&ir1=" ++ sensorStatus 0 ++ "&ir2=" ++ sensorStatus 1 ++
      "&ir3=" ++ sensorStatus 2
    let httpDiags :=
      if httpCode ≠ HTTP_CODE_OK then
        ["HTTP GET request failed", toString httpCode]
      else []
    ⟨publishes, [link], [envLine] ++ pubDiags ++ httpDiags ++ [httpResponse], []⟩
  | _, _ =>
    ⟨[], [], ["Failed to read from DHT sensor"], [2000]⟩

/-- Outputs of one execution of the body of `loop` (lines 95-139), after
the connectivity check: the level written to the relay pin, the levels
written to the three LED pins, the three slot status strings, the
`availableSlots` counter, and the effect lists of the tick (publishes,
uploads, diagnostics, delays). -/
structure TickOut where
  relay : Level
  leds : Fin 3 → Level
  sensorStatus : Fin 3 → String
  availableSlots : ℤ
  publishes : List (String × String × Bool)
  uploads : List String
  diags : List String
  delays : List ℕ

/-- The body of `loop` (lines 102-138), i.e. one tick after the MQTT
connectivity check: read the gas sample and drive the relay
(lines 103-114); for each slot run `detectIRStatus`, drive its LED and
decrement `availableSlots` when occupied (lines 117-132); call
`readDHT(3 - availableSlots, sensorStatus, sensorValue)` (line 136);
`delay(1000)` (line 138).  `irReads i` is the level trace of slot `i`'s
pin, sampled from its own first read (time 0).  The 50 ms debounce delay
occurs exactly when the first read of a slot is `LOW`. -/
def tickBody (sensorValue : ℤ) (irReads : Fin 3 → ℕ → Level)
    (humidity temperature : Option ℚ) (mqttConnected : Bool)
    (httpCode : ℤ) (httpResponse : String) : TickOut :=
  let relay := if sensorValue > threshold then Level.high else Level.low
  let status : Fin 3 → String := fun i => detectIRStatus (irReads i) 0
  let leds : Fin 3 → Level := fun i =>
    if status i = "Occupied" then Level.low else Level.high
  let availableSlots : ℤ :=
    (List.finRange 3).foldl
      (fun a i => if status i = "Occupied" then a - 1 else a) 3
  let slotDelays : List ℕ :=
    (List.finRange 3).foldl
      (fun a i => a ++ (if (irReads i) 0 = Level.low then [50] else [])) []
  let dhtE := readDHT (3 - availableSlots) status sensorValue
    humidity temperature mqttConnected httpCode httpResponse
  ⟨relay, leds, status, availableSlots, dhtE.publishes, dhtE.uploads,
    dhtE.diags, slotDelays ++ dhtE.delays ++ [1000]⟩

/-- `reconnect()` (lines 46-58), fuel-indexed: `attempts n` is the
outcome of the `n`-th `mqttClient.connect` call; the loop keeps retrying
(with a `delay(5000)` after each failure) until an attempt succeeds.
`reconnectFuel attempts i fuel` runs at most `fuel` attempts starting at
index `i`, returning `some k` when attempt `k` is the first success and
`none` when the fuel runs out before any success; the source's unbounded
`while` diverging corresponds to `none` for every fuel. -/
def reconnectFuel (attempts : ℕ → Bool) (i : ℕ) : ℕ → Option ℕ
  | 0 => none
  | fuel + 1 =>
    if attempts i = true then some i
    else reconnectFuel attempts (i + 1) fuel

/-- Prepend reconnect backoff delays to a tick's delay list. -/
def prependDelays (ds : List ℕ) (o : TickOut) : TickOut :=
  ⟨o.relay, o.leds, o.sensorStatus, o.availableSlots,
    o.publishes, o.uploads, o.diags, ds ++ o.delays⟩

/-- One full iteration of `loop` (lines 95-139): if
`mqttClient.connected()` is false at the top of the loop, `reconnect()`
runs first, blocking until some attempt succeeds (each failed attempt
costing a 5000 ms backoff); only then does the tick body execute.
Result `none` means the reconnect loop never returned within `fuel`
attempts, so no tick logic executed. -/
def loopTick (connected : Bool) (attempts : ℕ → Bool) (fuel : ℕ)
    (sensorValue : ℤ) (irReads : Fin 3 → ℕ → Level)
    (humidity temperature : Option ℚ) (mqttConnected : Bool)
    (httpCode : ℤ) (httpResponse : String) : Option TickOut :=
  if connected then
    some (tickBody sensorValue irReads humidity temperature
      mqttConnected httpCode httpResponse)
  else
    match reconnectFuel attempts 0 fuel with
    | none => none
    | some k =>
      some (prependDelays (List.replicate k 5000)
        (tickBody sensorValue irReads humidity temperature
          mqttConnected httpCode httpResponse))

/-- Number of slots whose status string is `"Occupied"`. -/
def occupiedCount (status : Fin 3 → String) : ℤ :=
  ((List.finRange 3).filter (fun i => status i = "Occupied")).length

lemma finRange_three : List.finRange 3 = [0, 1, 2] := by decide

/-- C1: in every tick, the relay pin is driven `HIGH` (fan on) iff the
gas sample is strictly greater than the threshold constant 1000; at a
sample equal to the threshold the relay is driven `LOW`; and the relay
decision depends only on the current tick's gas sample, not on any other
input of the tick (no hysteresis or stored state). -/
theorem spec_C1_relay_threshold :
    (∀ s r hm tp c code resp,
      (tickBody s r hm tp c code resp).relay = Level.high ↔ 1000 < s)
    ∧ (∀ r hm tp c code resp,
      (tickBody 1000 r hm tp c code resp).relay = Level.low)
    ∧ (∀ s r₁ r₂ hm₁ hm₂ tp₁ tp₂ c₁ c₂ code₁ code₂ resp₁ resp₂,
      (tickBody s r₁ hm₁ tp₁ c₁ code₁ resp₁).relay
        = (tickBody s r₂ hm₂ tp₂ c₂ code₂ resp₂).relay) := by
  refine ⟨fun s r hm tp c code resp => ?_, fun r hm tp c code resp => ?_,
    fun s r₁ r₂ hm₁ hm₂ tp₁ tp₂ c₁ c₂ code₁ code₂ resp₁ resp₂ => ?_⟩
  · by_cases hs : 1000 < s
    · simp [tickBody, threshold, hs]
    · simp [tickBody, threshold, hs]
  · simp [tickBody, threshold]
  · by_cases hs : 1000 < s
    · simp [tickBody, threshold, hs]
    · simp [tickBody, threshold, hs]

/-- C2: in every tick, `availableSlots` equals 3 minus the number of
slots whose status is `"Occupied"`, and is always between 0 and 3. -/
theorem spec_C2_available_count (s : ℤ) (r : Fin 3 → ℕ → Level)
    (hm tp : Option ℚ) (c : Bool) (code : ℤ) (resp : String) :
    (tickBody s r hm tp c code resp).availableSlots
        = 3 - occupiedCount (tickBody s r hm tp c code resp).sensorStatus
    ∧ 0 ≤ (tickBody s r hm tp c code resp).availableSlots
    ∧ (tickBody s r hm tp c code resp).availableSlots ≤ 3 := by
  by_cases h0 : detectIRStatus (r 0) 0 = "Occupied" <;>
    by_cases h1 : detectIRStatus (r 1) 0 = "Occupied" <;>
      by_cases h2 : detectIRStatus (r 2) 0 = "Occupied" <;>
        simp [tickBody, occupiedCount, finRange_three, h0, h1, h2]

/-- C3: `detectIRStatus` returns `"Occupied"` iff the pin reads `LOW`
(the active level) both at the first read and at the re-read 50
time-units later; if the first read is not `LOW`, or the re-read is not
`LOW`, the result is `"Empty"`; consequently an active pulse confined to
a window no longer than the 50-unit settle interval always yields
`"Empty"`, whenever the detection starts. -/
theorem spec_C3_debounce :
    (∀ reads t, detectIRStatus reads t = "Occupied" ↔
        reads t = Level.low ∧ reads (t + 50) = Level.low)
    ∧ (∀ reads t, reads t ≠ Level.low → detectIRStatus reads t = "Empty")
    ∧ (∀ reads t, reads t = Level.low → reads (t + 50) ≠ Level.low →
        detectIRStatus reads t = "Empty")
    ∧ (∀ (reads : ℕ → Level) a d, d ≤ 50 →
        (∀ u, reads u = Level.low → a ≤ u ∧ u < a + d) →
        ∀ t, detectIRStatus reads t = "Empty") := by
  refine ⟨fun reads t => ?_, fun reads t h1 => ?_, fun reads t h1 h2 => ?_,
    fun reads a d hd hp t => ?_⟩
  · by_cases h1 : reads t = Level.low <;>
      by_cases h2 : reads (t + 50) = Level.low <;>
        simp [detectIRStatus, h1, h2]
  · simp [detectIRStatus, h1]
  · simp [detectIRStatus, h1, h2]
  · by_cases h1 : reads t = Level.low
    · have hat := hp t h1
      have h2 : reads (t + 50) ≠ Level.low := by
        intro h2
        have h50 := hp (t + 50) h2
        omega
      simp [detectIRStatus, h1, h2]
    · simp [detectIRStatus, h1]

/-- Witness for C3: a one-instant active pulse (active only at time 0,
window length 1 ≤ 50) yields `"Empty"`. -/
theorem spec_C3_debounce_witness :
    detectIRStatus (fun u => if u = 0 then Level.low else Level.high) 0
      = "Empty" := by
  refine spec_C3_debounce.2.2.2 (fun u => if u = 0 then Level.low else Level.high)
    0 1 (by decide) ?_ 0
  intro u h
  by_cases hu : u = 0
  · subst hu; omega
  · simp [hu] at h

/-- C4: when either DHT reading is NaN (`none`), `readDHT` performs no
MQTT publish and issues no HTTP upload, and records the local
diagnostic; when both readings are numbers, exactly one upload is
attempted. -/
theorem spec_C4_invalid_sample_skips (s : ℤ) (st : Fin 3 → String) (g : ℤ)
    (hm tp : Option ℚ) (conn : Bool) (code : ℤ) (resp : String) :
    ((hm = none ∨ tp = none) →
      (readDHT s st g hm tp conn code resp).uploads = []
      ∧ (readDHT s st g hm tp conn code resp).publishes = []
      ∧ "Failed to read from DHT sensor"
          ∈ (readDHT s st g hm tp conn code resp).diags)
    ∧ (∀ h t, hm = some h → tp = some t →
      (readDHT s st g hm tp conn code resp).uploads.length = 1) := by
  constructor
  · intro hinv
    match hm, tp with
    | none, _ => simp [readDHT]
    | some h, none => simp [readDHT]
    | some h, some t => rcases hinv with h1 | h1 <;> simp at h1
  · intro h t hh ht
    subst hh; subst ht
    simp [readDHT]

/-- Witness for C4: concrete NaN tick uploads nothing; concrete valid
tick uploads exactly once. -/
theorem spec_C4_invalid_sample_skips_witness :
    (readDHT 0 (fun _ => "Empty") 0 none (some 20) true 200 "").uploads = []
    ∧ (readDHT 0 (fun _ => "Empty") 0 (some 50) (some 20) true 200
        "").uploads.length = 1 := by
  refine ⟨((spec_C4_invalid_sample_skips 0 (fun _ => "Empty") 0 none (some 20)
    true 200 "").1 (Or.inl rfl)).1, ?_⟩
  exact (spec_C4_invalid_sample_skips 0 (fun _ => "Empty") 0 (some 50) (some 20)
    true 200 "").2 50 20 rfl rfl

/-- Counterexample to C5 as stated: a tick with a valid sample meeting
both thresholds (temperature 25 ≥ 25, humidity 60 ≥ 60) but with the
MQTT client disconnected performs no publish, so the publish does not
occur "iff temperature ≥ 25.0 AND humidity ≥ 60.0": the code also
requires `mqttClient.connected()`. -/
theorem spec_C5_counterexample :
    (25 : ℚ) ≥ 25 ∧ (60 : ℚ) ≥ 60
    ∧ (readDHT 1 (fun _ => "Empty") 1200 (some 60) (some 25) false 200
        "").publishes = [] := by
  refine ⟨le_refl _, le_refl _, ?_⟩
  simp [readDHT]

/-- C5 (amended): for a valid sample, the publish occurs iff
temperature ≥ 25.0 AND humidity ≥ 60.0 AND the MQTT client is connected;
when it occurs it publishes the formatted temperature and humidity on
the two fixed topics with the retain flag; with the client connected the
boundary pair (25.0, 60.0) publishes while (24.9, 60.0) and (25.0, 59.9)
do not. -/
theorem spec_C5_publish_rule :
    (∀ (s : ℤ) (st : Fin 3 → String) (g : ℤ) (h t : ℚ) (conn : Bool)
        (code : ℤ) (resp : String),
      (readDHT s st g (some h) (some t) conn code resp).publishes
        = (if 25 ≤ t ∧ 60 ≤ h ∧ conn = true then
            [(dht_topic, fmtFix2 t, true), (dht_topic1, fmtFix2 h, true)]
          else [])
      ∧ ((readDHT s st g (some h) (some t) conn code resp).publishes ≠ []
          ↔ t ≥ 25 ∧ h ≥ 60 ∧ conn = true))
    ∧ (∀ st : Fin 3 → String,
      (readDHT 0 st 0 (some 60) (some 25) true 200 "").publishes ≠ []
      ∧ (readDHT 0 st 0 (some 60) (some 24.9) true 200 "").publishes = []
      ∧ (readDHT 0 st 0 (some 59.9) (some 25) true 200 "").publishes = []) := by
  constructor
  · intro s st g h t conn code resp
    by_cases h25 : 25 ≤ t <;> by_cases h60 : 60 ≤ h <;> cases conn <;>
      simp [readDHT, h25, h60, ge_iff_le]
  · intro st
    refine ⟨?_, ?_, ?_⟩
    · have h1 : (25 : ℚ) ≤ 25 := le_refl _
      have h2 : (60 : ℚ) ≤ 60 := le_refl _
      simp [readDHT, h1, h2]
    · have h1 : ¬ (25 : ℚ) ≤ 24.9 := by norm_num
      simp [readDHT, h1]
    · have h2 : ¬ (60 : ℚ) ≤ 59.9 := by norm_num
      simp [readDHT, h2]

/-- C6: on every tick with a valid sample, exactly one status-upload
request is issued; the request does not depend on the MQTT connection
state (so it is independent of whether the publish branch ran); and in
the concrete scenario (slots Occupied/Empty/Occupied, gas 1200,
temperature 30.0, humidity 70.0) the single request's query string
carries temp=30.00, hum=70.00, gas=1200 and the three slot strings. -/
theorem spec_C6_upload_request :
    (∀ (s : ℤ) (st : Fin 3 → String) (g : ℤ) (h t : ℚ) (conn : Bool)
        (code : ℤ) (resp : String),
      (readDHT s st g (some h) (some t) conn code resp).uploads.length = 1
      ∧ (readDHT s st g (some h) (some t) true code resp).uploads
          = (readDHT s st g (some h) (some t) false code resp).uploads)
    ∧ (readDHT 2 !["Occupied", "Empty", "Occupied"] 1200 (some 70) (some 30)
        true 404 "resp").uploads
      = ["http://YOUR_SERVER_IP/projectfinal/kirimdata.php?temp=30.00" ++
          "&hum=70.00&gas=1200&ir1=Occupied&ir2=Empty&ir3=Occupied"] := by
  refine ⟨fun s st g h t conn code resp => ⟨?_, ?_⟩, ?_⟩
  · simp [readDHT]
  · simp [readDHT]
  · decide

/-- C7: the HTTP status code (and response body) returned by the upload
influence nothing but the diagnostic log: the relay level, the LED
levels, the slot statuses, the available count, the publishes and the
upload request of the tick are identical for any two status
codes/responses, and at most one upload is attempted per tick. -/
theorem spec_C7_upload_failure_frame :
    ∀ (s : ℤ) (r : Fin 3 → ℕ → Level) (hm tp : Option ℚ) (conn : Bool)
      (code₁ code₂ : ℤ) (resp₁ resp₂ : String),
      (tickBody s r hm tp conn code₁ resp₁).relay
          = (tickBody s r hm tp conn code₂ resp₂).relay
      ∧ (tickBody s r hm tp conn code₁ resp₁).leds
          = (tickBody s r hm tp conn code₂ resp₂).leds
      ∧ (tickBody s r hm tp conn code₁ resp₁).sensorStatus
          = (tickBody s r hm tp conn code₂ resp₂).sensorStatus
      ∧ (tickBody s r hm tp conn code₁ resp₁).availableSlots
          = (tickBody s r hm tp conn code₂ resp₂).availableSlots
      ∧ (tickBody s r hm tp conn code₁ resp₁).publishes
          = (tickBody s r hm tp conn code₂ resp₂).publishes
      ∧ (tickBody s r hm tp conn code₁ resp₁).uploads
          = (tickBody s r hm tp conn code₂ resp₂).uploads
      ∧ (tickBody s r hm tp conn code₁ resp₁).uploads.length ≤ 1 := by
  intro s r hm tp conn code₁ code₂ resp₁ resp₂
  refine ⟨rfl, rfl, rfl, rfl, ?_, ?_, ?_⟩
  · cases hm <;> cases tp <;> simp [tickBody, readDHT]
  · cases hm <;> cases tp <;> simp [tickBody, readDHT]
  · cases hm <;> cases tp <;> simp [tickBody, readDHT]

/-- Counterexample to C8 as stated: on a tick whose DHT sample is NaN,
the tick performs a 2000 ms wait (line 175 of the sketch), which is none
of the three suspension points the claim allows (the 50 ms settle, the
1000 ms inter-tick interval, the 5000 ms reconnect backoff). -/
theorem spec_C8_counterexample :
    2000 ∈ (tickBody 0 (fun _ _ => Level.high) none none true 200 "").delays
    ∧ ¬((2000 : ℕ) = 50 ∨ (2000 : ℕ) = 1000 ∨ (2000 : ℕ) = 5000) := by
  constructor
  · decide
  · decide

/-- C8 (amended): every wait performed by a full loop iteration is one
of: the 50 ms debounce settle, the 1000 ms inter-tick interval, the
2000 ms wait of the invalid-DHT-sample branch, or the 5000 ms reconnect
backoff. -/
theorem spec_C8_waits (connected : Bool) (attempts : ℕ → Bool) (fuel : ℕ)
    (s : ℤ) (r : Fin 3 → ℕ → Level) (hm tp : Option ℚ) (conn : Bool)
    (code : ℤ) (resp : String) (o : TickOut)
    (ho : loopTick connected attempts fuel s r hm tp conn code resp = some o) :
    ∀ d ∈ o.delays, d = 50 ∨ d = 1000 ∨ d = 2000 ∨ d = 5000 := by
  have hbody : ∀ d ∈ (tickBody s r hm tp conn code resp).delays,
      d = 50 ∨ d = 1000 ∨ d = 2000 ∨ d = 5000 := by
    intro d hd
    cases hm <;> cases tp <;>
      by_cases h0 : (r 0) 0 = Level.low <;>
        by_cases h1 : (r 1) 0 = Level.low <;>
          by_cases h2 : (r 2) 0 = Level.low <;>
            simp [tickBody, readDHT, finRange_three, h0, h1, h2] at hd <;>
              omega
  intro d hd
  cases connected with
  | true =>
    simp [loopTick] at ho
    subst ho
    exact hbody d hd
  | false =>
    cases hrc : reconnectFuel attempts 0 fuel with
    | none => simp [loopTick, hrc] at ho
    | some k =>
      simp [loopTick, hrc] at ho
      subst ho
      rcases List.mem_append.1 hd with hd5 | hdb
      · exact Or.inr (Or.inr (Or.inr (List.eq_of_mem_replicate hd5)))
      · exact hbody d hdb

/-- Witness for C8 (amended): a concrete connected tick whose delay list
contains 2000 (NaN sample), classified by the amended theorem. -/
theorem spec_C8_waits_witness :
    (2000 : ℕ) = 50 ∨ (2000 : ℕ) = 1000 ∨ (2000 : ℕ) = 2000
      ∨ (2000 : ℕ) = 5000 :=
  spec_C8_waits true (fun _ => true) 1 0 (fun _ _ => Level.high) none none
    true 200 "" (tickBody 0 (fun _ _ => Level.high) none none true 200 "")
    rfl 2000 (by decide)

/-- C9: if every MQTT connection attempt fails, `reconnect` never
returns (for every fuel), and a loop iteration that starts disconnected
executes no tick logic at all; conversely `reconnect` returns index `k`
only when attempt `k` succeeds, all attempts from the starting index
before `k` having failed (each such failure costing the fixed 5000 ms
backoff). -/
theorem spec_C9_reconnect_blocks :
    (∀ attempts : ℕ → Bool, (∀ n, attempts n = false) →
      (∀ i fuel, reconnectFuel attempts i fuel = none)
      ∧ (∀ fuel (s : ℤ) (r : Fin 3 → ℕ → Level) (hm tp : Option ℚ)
          (conn : Bool) (code : ℤ) (resp : String),
          loopTick false attempts fuel s r hm tp conn code resp = none))
    ∧ (∀ (attempts : ℕ → Bool) (i fuel k : ℕ),
        reconnectFuel attempts i fuel = some k →
        attempts k = true ∧ ∀ j, i ≤ j → j < k → attempts j = false) := by
  constructor
  · intro attempts hfail
    have hrec : ∀ fuel i, reconnectFuel attempts i fuel = none := by
      intro fuel
      induction fuel with
      | zero => intro i; rfl
      | succ n ih => intro i; simp [reconnectFuel, hfail i]; exact ih (i + 1)
    refine ⟨fun i fuel => hrec fuel i, ?_⟩
    intro fuel s r hm tp conn code resp
    simp [loopTick, hrec fuel 0]
  · intro attempts i fuel k
    induction fuel generalizing i with
    | zero => intro ho; simp [reconnectFuel] at ho
    | succ n ih =>
      intro ho
      by_cases hai : attempts i = true
      · simp [reconnectFuel, hai] at ho
        subst ho
        exact ⟨hai, fun j hij hjk => absurd hjk (by omega)⟩
      · simp [reconnectFuel, hai] at ho
        obtain ⟨hk, hj⟩ := ih (i + 1) ho
        refine ⟨hk, fun j hij hjk => ?_⟩
        rcases Nat.eq_or_lt_of_le hij with hji | hji
        · simpa [← hji] using hai
        · exact hj j hji hjk

/-- Witness for C9: with the always-failing attempt trace, `reconnect`
returns no result within 3 attempts and the disconnected loop iteration
produces no tick; with a trace whose third attempt succeeds, the
returned index is a successful attempt. -/
theorem spec_C9_reconnect_blocks_witness :
    reconnectFuel (fun _ => false) 0 3 = none
    ∧ loopTick false (fun _ => false) 3 0 (fun _ _ => Level.high) none none
        true 200 "" = none
    ∧ (fun n : ℕ => n == 2) 2 = true := by
  refine ⟨(spec_C9_reconnect_blocks.1 (fun _ => false) (fun _ => rfl)).1 0 3,
    (spec_C9_reconnect_blocks.1 (fun _ => false) (fun _ => rfl)).2 3 0
      (fun _ _ => Level.high) none none true 200 "", ?_⟩
  exact (spec_C9_reconnect_blocks.2 (fun n : ℕ => n == 2) 0 5 2 (by decide)).1

/-- C10: the `slots` argument of `readDHT` (passed as
`3 - availableSlots` at the call site) has no influence on any of its
effects: two calls differing only in that argument produce identical
publishes, uploads, diagnostics and delays. -/
theorem spec_C10_slots_arg_unused :
    ∀ (s₁ s₂ : ℤ) (st : Fin 3 → String) (g : ℤ) (hm tp : Option ℚ)
      (conn : Bool) (code : ℤ) (resp : String),
      readDHT s₁ st g hm tp conn code resp
        = readDHT s₂ st g hm tp conn code resp := by
  intro s₁ s₂ st g hm tp conn code resp
  rfl
